import Mathlib

/-!
Shallow embedding of the rustbricks client library: the error taxonomy
(src/errors/http.rs), the request dispatchers (src/services/databricks_session.rs
and src/services/databricks_request.rs), and the serde-driven (de)serialization
of the SQL-statement domain model (src/models/sql_statement.rs).

External library behaviour that the source relies on is modelled explicitly:
the `http` crate's header-value byte validity, the `Display` of `StatusCode`
(numeric code followed by the canonical reason phrase), serde's treatment of
required / optional / defaulted / `deserialize_with` fields, and chrono's
RFC 3339 parsing for `DateTime<Utc>`.
-/

/-- JSON values, the data model of serde_json. Numbers are modelled as `Int`,
which covers every numeric field of this API (i32 / i64). Objects are ordered
field lists; the inputs of interest have no duplicate keys. -/
inductive Json where
  | null : Json
  | bool (b : Bool) : Json
  | num (n : Int) : Json
  | str (s : String) : Json
  | arr (elems : List Json) : Json
  | obj (fields : List (String × Json)) : Json

/-- First binding of `key` in an object's field list (objects of interest have
no duplicate keys); `none` on non-objects and missing keys. -/
def Json.getField : Json → String → Option Json
  | .obj fields, key => fields.lookup key
  | _, _ => none

/-- `ErrorResponse` from src/errors/http.rs: the canonical non-success body
shape, both fields plain (required) strings. -/
structure ErrorResponse where
  error_code : String
  message : String
deriving Repr, DecidableEq

/-- `HttpError` from src/errors/http.rs. `InternalError` boxes a local error;
we retain only its message text. -/
inductive HttpError where
  | BadRequest (msg : String)
  | Unauthorized (msg : String)
  | PermissionDenied (msg : String)
  | NotFound (msg : String)
  | RequestLimitExceeded (msg : String)
  | InternalServerError (msg : String)
  | TemporarilyUnavailable (msg : String)
  | InternalError (msg : String)
deriving Repr, DecidableEq

/-- `HttpError::from_error_response` (src/errors/http.rs lines 23-34):
fixed lookup on the error code string, defaulting to `InternalServerError`. -/
def HttpError.from_error_response (response : ErrorResponse) : HttpError :=
  match response.error_code with
  | "BAD_REQUEST" => HttpError.BadRequest response.message
  | "INVALID_PARAMETER_VALUE" => HttpError.BadRequest response.message
  | "UNAUTHORIZED" => HttpError.Unauthorized response.message
  | "PERMISSION_DENIED" => HttpError.PermissionDenied response.message
  | "NOT_FOUND" => HttpError.NotFound response.message
  | "REQUEST_LIMIT_EXCEEDED" => HttpError.RequestLimitExceeded response.message
  | "INTERNAL_SERVER_ERROR" => HttpError.InternalServerError response.message
  | "TEMPORARILY_UNAVAILABLE" => HttpError.TemporarilyUnavailable response.message
  | _ => HttpError.InternalServerError response.message

/-- The message text carried by an `HttpError` variant. -/
def HttpError.text : HttpError → String
  | .BadRequest m => m
  | .Unauthorized m => m
  | .PermissionDenied m => m
  | .NotFound m => m
  | .RequestLimitExceeded m => m
  | .InternalServerError m => m
  | .TemporarilyUnavailable m => m
  | .InternalError m => m

/-- Canonical reason phrases of the `http` crate's `StatusCode`, used by its
`Display` implementation (the source formats a `StatusCode` with `{}`). -/
def canonicalReason (code : Nat) : Option String :=
  match code with
  | 100 => some "Continue"
  | 101 => some "Switching Protocols"
  | 102 => some "Processing"
  | 200 => some "OK"
  | 201 => some "Created"
  | 202 => some "Accepted"
  | 203 => some "Non-Authoritative Information"
  | 204 => some "No Content"
  | 205 => some "Reset Content"
  | 206 => some "Partial Content"
  | 207 => some "Multi-Status"
  | 208 => some "Already Reported"
  | 226 => some "IM Used"
  | 300 => some "Multiple Choices"
  | 301 => some "Moved Permanently"
  | 302 => some "Found"
  | 303 => some "See Other"
  | 304 => some "Not Modified"
  | 305 => some "Use Proxy"
  | 307 => some "Temporary Redirect"
  | 308 => some "Permanent Redirect"
  | 400 => some "Bad Request"
  | 401 => some "Unauthorized"
  | 402 => some "Payment Required"
  | 403 => some "Forbidden"
  | 404 => some "Not Found"
  | 405 => some "Method Not Allowed"
  | 406 => some "Not Acceptable"
  | 407 => some "Proxy Authentication Required"
  | 408 => some "Request Timeout"
  | 409 => some "Conflict"
  | 410 => some "Gone"
  | 411 => some "Length Required"
  | 412 => some "Precondition Failed"
  | 413 => some "Payload Too Large"
  | 414 => some "URI Too Long"
  | 415 => some "Unsupported Media Type"
  | 416 => some "Range Not Satisfiable"
  | 417 => some "Expectation Failed"
  | 418 => some "I\x27m a teapot"
  | 421 => some "Misdirected Request"
  | 422 => some "Unprocessable Entity"
  | 423 => some "Locked"
  | 424 => some "Failed Dependency"
  | 426 => some "Upgrade Required"
  | 428 => some "Precondition Required"
  | 429 => some "Too Many Requests"
  | 431 => some "Request Header Fields Too Large"
  | 451 => some "Unavailable For Legal Reasons"
  | 500 => some "Internal Server Error"
  | 501 => some "Not Implemented"
  | 502 => some "Bad Gateway"
  | 503 => some "Service Unavailable"
  | 504 => some "Gateway Timeout"
  | 505 => some "HTTP Version Not Supported"
  | 506 => some "Variant Also Negotiates"
  | 507 => some "Insufficient Storage"
  | 508 => some "Loop Detected"
  | 510 => some "Not Extended"
  | 511 => some "Network Authentication Required"
  | _ => none

/-- `Display` of `StatusCode` in the `http` crate: the numeric code, a space,
and the canonical reason phrase (a placeholder when unregistered). -/
def statusDisplay (code : Nat) : String :=
  toString code ++ " " ++ (canonicalReason code).getD "<unknown status code>"

/-- An HTTP response as seen by the response handlers: the status code and the
result of reading the body as text (`none` models a failed `text()` read,
which the source replaces with a fixed fallback string). -/
structure Rsp where
  status : Nat
  text : Option String

/-- `DatabricksSession::handle_response` (src/services/databricks_session.rs
lines 230-252), parameterized by the serde instances the Rust generics supply:
`parseT` is `serde_json::from_str::<T>` and `parseErr` is
`serde_json::from_str::<ErrorResponse>` (`none` models a parse failure). -/
def DatabricksSession.handle_response {T : Type}
    (parseT : String → Except String T)
    (parseErr : String → Option ErrorResponse)
    (response : Rsp) : Except HttpError T :=
  let body_text : String := response.text.getD "Failed to get response text"
  if response.status = 200 then
    match parseT body_text with
    | .ok v => .ok v
    | .error err => .error (HttpError.InternalServerError err)
  else
    let error : ErrorResponse :=
      (parseErr body_text).getD
        { error_code := "UNKNOWN"
          message := "Unknown error with status code: " ++ statusDisplay response.status }
    .error (HttpError.from_error_response error)

/-- The response-handling tail of the free function `send_databricks_request`
(src/services/databricks_request.rs lines 37-53): read the body text with the
same fallback, then the same match on the status. -/
def sendRequestTail {T : Type}
    (parseT : String → Except String T)
    (parseErr : String → Option ErrorResponse)
    (response : Rsp) : Except HttpError T :=
  let body_text : String := response.text.getD "Failed to get response text"
  if response.status = 200 then
    match parseT body_text with
    | .ok v => .ok v
    | .error err => .error (HttpError.InternalServerError err)
  else
    let error : ErrorResponse :=
      (parseErr body_text).getD
        { error_code := "UNKNOWN"
          message := "Unknown error with status code: " ++ statusDisplay response.status }
    .error (HttpError.from_error_response error)

/-- Validity of one byte of an HTTP header value, exactly the `http` crate's
check: visible characters and opaque bytes, plus horizontal tab. -/
def headerByteValid (b : Nat) : Bool :=
  (decide (32 ≤ b) && b != 127) || b == 9

/-- Validity of a character: a scalar value below 0x80 is the single UTF-8
byte equal to its code; a scalar value of 0x80 or above encodes to bytes that
are all at least 0x80, every one of which `headerByteValid` accepts. -/
def charHeaderValid (c : Char) : Bool :=
  if c.toNat < 128 then headerByteValid c.toNat else true

/-- `HeaderValue::from_str` succeeds exactly when every byte is valid. -/
def headerValueOk (s : String) : Bool :=
  s.data.all charHeaderValid

/-- `format!("Bearer {}", token).parse::<HeaderValue>()`, as used by both
dispatch routines; `none` is the parse error whose `unwrap` panics. -/
def buildAuthHeader (token : String) : Option String :=
  if headerValueOk ("Bearer " ++ token) then some ("Bearer " ++ token) else none

/-- The two HTTP methods the library uses. -/
inductive HttpMethod where
  | GET : HttpMethod
  | POST : HttpMethod
deriving Repr, DecidableEq

/-- The request handed to the transport after the dispatcher has built it:
method, absolute URL, the single Authorization header value, and the
JSON-serialized body when one was supplied. -/
structure BuiltRequest where
  method : HttpMethod
  url : String
  auth_header : String
  body : Option Json

/-- The outcome of `send()` on the transport: an HTTP response, or a transport
failure tagged with whether it was a timeout, carrying its message text. -/
inductive TransportResult where
  | ok (response : Rsp) : TransportResult
  | err (is_timeout : Bool) (msg : String) : TransportResult

/-- `Config` from src/config.rs. -/
structure Config where
  databricks_host : String
  databricks_token : String

/-- The request the dispatchers build: URL is `format!("{}/{}", host, endpoint)`
and the one Authorization header. -/
def builtRequest (host auth : String) (method : HttpMethod) (endpoint : String)
    (body : Option Json) : BuiltRequest :=
  { method := method, url := host ++ "/" ++ endpoint, auth_header := auth, body := body }

/-- `DatabricksSession::send_databricks_request` (src/services/databricks_session.rs
lines 183-217), parameterized by the transport, the serde serializer of the body
type `B` and the serde instances for the response. The outer `Option` models the
`unwrap` on the header parse: `none` is a panic before any request is sent. -/
def DatabricksSession.send_databricks_request {T B : Type}
    (config : Config)
    (transport : BuiltRequest → TransportResult)
    (serialize : B → Json)
    (parseT : String → Except String T)
    (parseErr : String → Option ErrorResponse)
    (method : HttpMethod) (endpoint : String) (body : Option B) :
    Option (Except HttpError T) :=
  match buildAuthHeader config.databricks_token with
  | none => none
  | some auth =>
    let req : BuiltRequest :=
      builtRequest config.databricks_host auth method endpoint (body.map serialize)
    some (match transport req with
      | .err is_timeout msg =>
          .error (if is_timeout then HttpError.TemporarilyUnavailable msg
                  else HttpError.InternalServerError msg)
      | .ok response => DatabricksSession.handle_response parseT parseErr response)

/-- The superseded free function `send_databricks_request`
(src/services/databricks_request.rs lines 8-54): same URL composition, header,
body and transport-error mapping, with the response handling inlined as
`sendRequestTail`. -/
def send_databricks_request {T B : Type}
    (host token : String)
    (transport : BuiltRequest → TransportResult)
    (serialize : B → Json)
    (parseT : String → Except String T)
    (parseErr : String → Option ErrorResponse)
    (method : HttpMethod) (endpoint : String) (body : Option B) :
    Option (Except HttpError T) :=
  match buildAuthHeader token with
  | none => none
  | some auth =>
    let req : BuiltRequest := builtRequest host auth method endpoint (body.map serialize)
    some (match transport req with
      | .err is_timeout msg =>
          .error (if is_timeout then HttpError.TemporarilyUnavailable msg
                  else HttpError.InternalServerError msg)
      | .ok response => sendRequestTail parseT parseErr response)

/-- `DatabricksSession::execute_sql_statement` (src/services/databricks_session.rs
lines 96-102): POST to `api/2.0/sql/statements` with the request as body. `B` is
`SqlStatementRequest` and `T` is `SqlStatementResponse`; the serde instances are
parameters, as in the Rust generics. -/
def DatabricksSession.execute_sql_statement {T B : Type}
    (config : Config) (transport : BuiltRequest → TransportResult)
    (serialize : B → Json) (parseT : String → Except String T)
    (parseErr : String → Option ErrorResponse)
    (request_body : B) : Option (Except HttpError T) :=
  DatabricksSession.send_databricks_request config transport serialize parseT parseErr
    HttpMethod.POST "api/2.0/sql/statements" (some request_body)

/-- `DatabricksSession::get_sql_statement_status` (lines 114-124): GET to
`api/2.0/sql/statements/{statement_id}` with no body (`None::<()>`). -/
def DatabricksSession.get_sql_statement_status {T : Type}
    (config : Config) (transport : BuiltRequest → TransportResult)
    (parseT : String → Except String T)
    (parseErr : String → Option ErrorResponse)
    (statement_id : String) : Option (Except HttpError T) :=
  DatabricksSession.send_databricks_request config transport
    (fun _ : Unit => Json.null) parseT parseErr
    HttpMethod.GET ("api/2.0/sql/statements/" ++ statement_id) none

/-- `DatabricksSession::get_sql_statement_result_chunk` (lines 136-150): GET to
`api/2.0/sql/statements/{statement_id}/result/chunks/{chunk_index}` with no
body; `chunk_index` is an i32, rendered in decimal as Rust `{}` does. -/
def DatabricksSession.get_sql_statement_result_chunk {T : Type}
    (config : Config) (transport : BuiltRequest → TransportResult)
    (parseT : String → Except String T)
    (parseErr : String → Option ErrorResponse)
    (statement_id : String) (chunk_index : Int) : Option (Except HttpError T) :=
  DatabricksSession.send_databricks_request config transport
    (fun _ : Unit => Json.null) parseT parseErr
    HttpMethod.GET
    ("api/2.0/sql/statements/" ++ statement_id ++ "/result/chunks/" ++ toString chunk_index)
    none

/-- `DatabricksSession::get_cluster_info` (lines 161-168): GET to
`api/2.0/clusters/get?cluster_id={cluster_id}` with no body. -/
def DatabricksSession.get_cluster_info {T : Type}
    (config : Config) (transport : BuiltRequest → TransportResult)
    (parseT : String → Except String T)
    (parseErr : String → Option ErrorResponse)
    (cluster_id : String) : Option (Except HttpError T) :=
  DatabricksSession.send_databricks_request config transport
    (fun _ : Unit => Json.null) parseT parseErr
    HttpMethod.GET ("api/2.0/clusters/get?cluster_id=" ++ cluster_id) none

/-- `DatabricksSession::execute_job_run` (lines 271-277): POST to
`api/2.1/jobs/run-now` with the request as body. -/
def DatabricksSession.execute_job_run {T B : Type}
    (config : Config) (transport : BuiltRequest → TransportResult)
    (serialize : B → Json) (parseT : String → Except String T)
    (parseErr : String → Option ErrorResponse)
    (request_body : B) : Option (Except HttpError T) :=
  DatabricksSession.send_databricks_request config transport serialize parseT parseErr
    HttpMethod.POST "api/2.1/jobs/run-now" (some request_body)

/-- serde_json deserialization of a `String`. -/
def deserializeString : Json → Except String String
  | .str s => .ok s
  | _ => .error "invalid type: expected a string"

/-- serde_json deserialization of an integer (i32 / i64). -/
def deserializeInt : Json → Except String Int
  | .num n => .ok n
  | _ => .error "invalid type: expected an integer"

/-- serde_json deserialization of a `bool`. -/
def deserializeBool : Json → Except String Bool
  | .bool b => .ok b
  | _ => .error "invalid type: expected a boolean"

/-- `Option::deserialize`: `null` is `None`, anything else is `Some` of the
inner deserialization. -/
def deserializeOption {A : Type} (f : Json → Except String A) :
    Json → Except String (Option A)
  | .null => .ok none
  | j => (f j).map some

/-- serde_json deserialization of a `Vec`. -/
def deserializeList {A : Type} (f : Json → Except String A) :
    Json → Except String (List A)
  | .arr xs => xs.mapM f
  | _ => .error "invalid type: expected a sequence"

/-- A required struct field (no `default`, no `Option`): absent is a
`missing field` error. -/
def reqField {A : Type} (j : Json) (key : String) (f : Json → Except String A) :
    Except String A :=
  match j.getField key with
  | none => .error ("missing field " ++ key)
  | some v => f v

/-- An `Option` struct field without attributes: serde's `missing_field` on an
`Option` target yields `None`, and a present value goes through
`Option::deserialize`. -/
def optField {A : Type} (j : Json) (key : String) (f : Json → Except String A) :
    Except String (Option A) :=
  match j.getField key with
  | none => .ok none
  | some v => deserializeOption f v

/-- A field with `#[serde(default)]`: absent yields the default value. -/
def defField {A : Type} (j : Json) (key : String) (dflt : A)
    (f : Json → Except String A) : Except String A :=
  match j.getField key with
  | none => .ok dflt
  | some v => f v

/-- A UTC instant as chrono's `DateTime<Utc>` stores it: seconds since the
Unix epoch plus a nanosecond part (which reaches 1000000000 + frac on a
leap second, as in chrono). -/
structure DateTimeUtc where
  secs : Int
  nanos : Nat
deriving Repr, DecidableEq

/-- Read exactly `n` decimal digits, accumulating their value. -/
def readNDigits : Nat → Nat → List Char → Option (Nat × List Char)
  | 0, acc, cs => some (acc, cs)
  | n + 1, acc, c :: cs =>
      if c.isDigit then readNDigits n (acc * 10 + (c.toNat - 48)) cs else none
  | _ + 1, _, [] => none

/-- Consume one expected character. -/
def expectChar (c : Char) : List Char → Option (List Char)
  | x :: xs => if x = c then some xs else none
  | [] => none

/-- Gregorian leap year. -/
def isLeapYear (y : Nat) : Bool :=
  (y % 4 == 0 && y % 100 != 0) || y % 400 == 0

/-- Days in a month of the proleptic Gregorian calendar. -/
def daysInMonth (y m : Nat) : Nat :=
  if m = 2 then (if isLeapYear y then 29 else 28)
  else if m = 4 ∨ m = 6 ∨ m = 9 ∨ m = 11 then 30
  else 31

/-- Days from 1970-01-01 of a civil date (years 0-9999, the RFC 3339 range),
via the standard era decomposition, carried out in `Nat` by shifting one
400-year era. -/
def daysFromCivil (y m d : Nat) : Int :=
  let y4 : Nat := y + 400
  let yy : Nat := if m ≤ 2 then y4 - 1 else y4
  let era : Nat := yy / 400
  let yoe : Nat := yy % 400
  let mp : Nat := (m + 9) % 12
  let doy : Nat := (153 * mp + 2) / 5 + d - 1
  let doe : Nat := yoe * 365 + yoe / 4 - yoe / 100 + doy
  (era * 146097 + doe : Int) - 719468 - 146097

/-- Nanoseconds denoted by a fraction-digit string (first nine digits count). -/
def fracNanos (ds : List Char) : Nat :=
  ((ds.take 9).foldl (fun acc c => acc * 10 + (c.toNat - 48)) 0) *
    10 ^ (9 - min 9 ds.length)

/-- The numeric offset suffix: `Z`/`z`, or `±HH:MM`; in minutes. -/
def readOffset : List Char → Option (Int × List Char)
  | 'Z' :: rest => some (0, rest)
  | 'z' :: rest => some (0, rest)
  | '+' :: rest => do
      let (h, rest) ← readNDigits 2 0 rest
      let rest ← expectChar ':' rest
      let (m, rest) ← readNDigits 2 0 rest
      if h ≤ 23 ∧ m ≤ 59 then some ((h * 60 + m : Nat), rest) else none
  | '-' :: rest => do
      let (h, rest) ← readNDigits 2 0 rest
      let rest ← expectChar ':' rest
      let (m, rest) ← readNDigits 2 0 rest
      if h ≤ 23 ∧ m ≤ 59 then some (-((h * 60 + m : Nat) : Int), rest) else none
  | _ => none

/-- chrono's `FromStr` for `DateTime<Utc>`: an RFC 3339 date-time
`YYYY-MM-DD` separator `HH:MM:SS`, optional `.fraction`, and an offset, the
whole input consumed. The separator may be `T`, `t` or a space; second 60 is
the leap second, folded into the nanosecond part as chrono does. The result
is normalized to UTC. -/
def parseDateTimeUtc (s : String) : Option DateTimeUtc := do
  let cs := s.data
  let (y, cs) ← readNDigits 4 0 cs
  let cs ← expectChar '-' cs
  let (mo, cs) ← readNDigits 2 0 cs
  let cs ← expectChar '-' cs
  let (d, cs) ← readNDigits 2 0 cs
  let cs ← match cs with
    | 'T' :: rest => some rest
    | 't' :: rest => some rest
    | ' ' :: rest => some rest
    | _ => none
  let (h, cs) ← readNDigits 2 0 cs
  let cs ← expectChar ':' cs
  let (mi, cs) ← readNDigits 2 0 cs
  let cs ← expectChar ':' cs
  let (sec, cs) ← readNDigits 2 0 cs
  let (frac, cs) ← match cs with
    | '.' :: rest =>
        match rest.span Char.isDigit with
        | ([], _) => none
        | (ds, rest2) => some (fracNanos ds, rest2)
    | _ => some (0, cs)
  let (offMin, cs) ← readOffset cs
  if cs = [] ∧ 1 ≤ mo ∧ mo ≤ 12 ∧ 1 ≤ d ∧ d ≤ daysInMonth y mo ∧
      h ≤ 23 ∧ mi ≤ 59 ∧ sec ≤ 60 then
    let secOfDay : Nat := h * 3600 + mi * 60 + min sec 59
    let leap : Nat := if sec = 60 then 1000000000 else 0
    some { secs := daysFromCivil y mo d * 86400 + secOfDay - offMin * 60
           nanos := leap + frac }
  else
    none

/-- `ExternalLink` from src/models/sql_statement.rs lines 88-101. -/
structure ExternalLink where
  chunk_index : Int
  row_offset : Int
  row_count : Int
  byte_count : Int
  next_chunk_index : Option Int
  next_chunk_internal_link : Option String
  external_link : String
  expiration : Option DateTimeUtc
deriving Repr, DecidableEq

/-- `deserialize_datetime` from src/models/sql_statement.rs lines 109-121:
`Option::deserialize`, then, when a string is present, chrono's
`DateTime<Utc>` parse, an unparsable string becoming a custom decode error. -/
def deserialize_datetime (j : Json) : Except String (Option DateTimeUtc) := do
  let s ← deserializeOption deserializeString j
  match s with
  | some s =>
      match parseDateTimeUtc s with
      | some dt => .ok (some dt)
      | none => .error ("invalid datetime: " ++ s)
  | none => .ok none

/-- The derived deserializer of `ExternalLink`. Because `expiration` carries
`#[serde(deserialize_with = "deserialize_datetime")]` and no
`#[serde(default)]`, serde_derive makes an absent `expiration` key a hard
`missing field` error (it cannot route an `Option` default through the custom
function); the untagged `Option` fields default to `None` when absent. -/
def deserializeExternalLink : Json → Except String ExternalLink
  | .obj fields => do
      let j := Json.obj fields
      let chunk_index ← reqField j "chunk_index" deserializeInt
      let row_offset ← reqField j "row_offset" deserializeInt
      let row_count ← reqField j "row_count" deserializeInt
      let byte_count ← reqField j "byte_count" deserializeInt
      let next_chunk_index ← optField j "next_chunk_index" deserializeInt
      let next_chunk_internal_link ← optField j "next_chunk_internal_link" deserializeString
      let external_link ← reqField j "external_link" deserializeString
      let expiration ← match j.getField "expiration" with
        | some v => deserialize_datetime v
        | none => .error "missing field expiration"
      pure { chunk_index := chunk_index, row_offset := row_offset,
             row_count := row_count, byte_count := byte_count,
             next_chunk_index := next_chunk_index,
             next_chunk_internal_link := next_chunk_internal_link,
             external_link := external_link, expiration := expiration }
  | _ => .error "invalid type: expected struct ExternalLink"

/-- `ChunkMetadata` from src/models/sql_statement.rs lines 70-77. -/
structure ChunkMetadata where
  chunk_index : Int
  row_offset : Int
  row_count : Int
  byte_count : Option Int
  next_chunk_index : Option Int
  next_chunk_internal_link : Option String
deriving Repr, DecidableEq

/-- The derived deserializer of `ChunkMetadata`. -/
def deserializeChunkMetadata : Json → Except String ChunkMetadata
  | .obj fields => do
      let j := Json.obj fields
      let chunk_index ← reqField j "chunk_index" deserializeInt
      let row_offset ← reqField j "row_offset" deserializeInt
      let row_count ← reqField j "row_count" deserializeInt
      let byte_count ← optField j "byte_count" deserializeInt
      let next_chunk_index ← optField j "next_chunk_index" deserializeInt
      let next_chunk_internal_link ← optField j "next_chunk_internal_link" deserializeString
      pure { chunk_index := chunk_index, row_offset := row_offset,
             row_count := row_count, byte_count := byte_count,
             next_chunk_index := next_chunk_index,
             next_chunk_internal_link := next_chunk_internal_link }
  | _ => .error "invalid type: expected struct ChunkMetadata"

/-- `ColumnDescription` from src/models/sql_statement.rs lines 61-67; the
`data_type` field is renamed `type_name` on the wire. -/
structure ColumnDescription where
  name : String
  data_type : String
  position : Int
deriving Repr, DecidableEq

/-- The derived deserializer of `ColumnDescription`. -/
def deserializeColumnDescription : Json → Except String ColumnDescription
  | .obj fields => do
      let j := Json.obj fields
      let name ← reqField j "name" deserializeString
      let data_type ← reqField j "type_name" deserializeString
      let position ← reqField j "position" deserializeInt
      pure { name := name, data_type := data_type, position := position }
  | _ => .error "invalid type: expected struct ColumnDescription"

/-- `Schema` from src/models/sql_statement.rs lines 55-59: `columns` has
`#[serde(default)]`. -/
structure Schema where
  columns : List ColumnDescription
deriving Repr, DecidableEq

/-- The derived deserializer of `Schema`. -/
def deserializeSchema : Json → Except String Schema
  | .obj fields => do
      let j := Json.obj fields
      let columns ← defField j "columns" [] (deserializeList deserializeColumnDescription)
      pure { columns := columns }
  | _ => .error "invalid type: expected struct Schema"

/-- `Manifest` from src/models/sql_statement.rs lines 43-53: `chunks` has
`#[serde(default)]`, so it is an empty vector when the key is absent. -/
structure Manifest where
  format : String
  schema : Option Schema
  chunks : List ChunkMetadata
  total_chunk_count : Int
  total_row_count : Int
  total_byte_count : Option Int
  truncated : Bool
deriving Repr, DecidableEq

/-- The derived deserializer of `Manifest`. -/
def deserializeManifest : Json → Except String Manifest
  | .obj fields => do
      let j := Json.obj fields
      let format ← reqField j "format" deserializeString
      let schema ← optField j "schema" deserializeSchema
      let chunks ← defField j "chunks" [] (deserializeList deserializeChunkMetadata)
      let total_chunk_count ← reqField j "total_chunk_count" deserializeInt
      let total_row_count ← reqField j "total_row_count" deserializeInt
      let total_byte_count ← optField j "total_byte_count" deserializeInt
      let truncated ← reqField j "truncated" deserializeBool
      pure { format := format, schema := schema, chunks := chunks,
             total_chunk_count := total_chunk_count,
             total_row_count := total_row_count,
             total_byte_count := total_byte_count, truncated := truncated }
  | _ => .error "invalid type: expected struct Manifest"

/-- `ResultData` from src/models/sql_statement.rs lines 79-86: both fields are
`Option` with `#[serde(skip_serializing_if = "Option::is_none")]`. -/
structure ResultData where
  data_array : Option (List (List (Option String)))
  external_links : Option (List ExternalLink)
deriving Repr, DecidableEq

/-- The derived deserializer of `ResultData`. -/
def deserializeResultData : Json → Except String ResultData
  | .obj fields => do
      let j := Json.obj fields
      let data_array ← optField j "data_array"
        (deserializeList (deserializeList (deserializeOption deserializeString)))
      let external_links ← optField j "external_links" (deserializeList deserializeExternalLink)
      pure { data_array := data_array, external_links := external_links }
  | _ => .error "invalid type: expected struct ResultData"

/-- Inverse of `daysFromCivil`: the civil date of a day count from 1970-01-01
(standard era decomposition, shifted 2000 years into `Nat` range). -/
def civilFromDays (z : Int) : Nat × Nat × Nat :=
  let zn : Nat := (z + 719468 + 730485).toNat
  let era : Nat := zn / 146097
  let doe : Nat := zn % 146097
  let yoe : Nat := (doe - doe / 1460 + doe / 36524 - doe / 146096) / 365
  let doy : Nat := doe - (365 * yoe + yoe / 4 - yoe / 100)
  let mp : Nat := (5 * doy + 2) / 153
  let d : Nat := doy - (153 * mp + 2) / 5 + 1
  let m : Nat := if mp < 10 then mp + 3 else mp - 9
  let y : Nat := yoe + era * 400 + (if m ≤ 2 then 1 else 0) - 2000
  (y, m, d)

/-- Zero-padded two-digit decimal. -/
def pad2 (n : Nat) : String :=
  if n < 10 then "0" ++ toString n else toString n

/-- Zero-padded four-digit decimal. -/
def pad4 (n : Nat) : String :=
  if n < 10 then "000" ++ toString n
  else if n < 100 then "00" ++ toString n
  else if n < 1000 then "0" ++ toString n
  else toString n

/-- Nine-digit fraction rendering of a nanosecond part, as chrono's `%.f`
specifier prints it (empty when zero). -/
def fracString (nanos : Nat) : String :=
  if nanos = 0 then ""
  else
    let digits := toString nanos
    let padded := String.mk (List.replicate (9 - digits.length) '0') ++ digits
    "." ++ padded

/-- chrono's `Serialize` for `DateTime<Utc>`: the RFC 3339 rendering with a
numeric `+00:00` offset. -/
def formatDateTimeUtc (dt : DateTimeUtc) : String :=
  let days : Int := dt.secs.ediv 86400
  let sod : Nat := (dt.secs.emod 86400).toNat
  let ymd := civilFromDays days
  pad4 ymd.1 ++ "-" ++ pad2 ymd.2.1 ++ "-" ++ pad2 ymd.2.2 ++ "T" ++
    pad2 (sod / 3600) ++ ":" ++ pad2 ((sod / 60) % 60) ++ ":" ++ pad2 (sod % 60) ++
    fracString dt.nanos ++ "+00:00"

/-- Serialization of an `Option` field without skip attributes: `None` is
emitted as `null`. -/
def serializeOptStr : Option String → Json
  | none => Json.null
  | some s => Json.str s

/-- The derived serializer of `ExternalLink`: every field is emitted except
the two `next_chunk` fields when `None` (their
`#[serde(skip_serializing_if = "Option::is_none")]`); `expiration` has no skip
attribute, so `None` serializes as `null`. -/
def ExternalLink.toJson (l : ExternalLink) : Json :=
  Json.obj
    ([("chunk_index", Json.num l.chunk_index),
      ("row_offset", Json.num l.row_offset),
      ("row_count", Json.num l.row_count),
      ("byte_count", Json.num l.byte_count)] ++
     (match l.next_chunk_index with
      | none => []
      | some n => [("next_chunk_index", Json.num n)]) ++
     (match l.next_chunk_internal_link with
      | none => []
      | some s => [("next_chunk_internal_link", Json.str s)]) ++
     [("external_link", Json.str l.external_link),
      ("expiration", match l.expiration with
        | none => Json.null
        | some dt => Json.str (formatDateTimeUtc dt))])

/-- The serialized form of an inline 2-D data array of nullable cells. -/
def serializeDataArray (a : List (List (Option String))) : Json :=
  Json.arr (a.map (fun row => Json.arr (row.map serializeOptStr)))

/-- The derived serializer of `ResultData`: both fields carry
`#[serde(skip_serializing_if = "Option::is_none")]`, so an absent field is
omitted from the object entirely, never emitted as `null`. -/
def ResultData.toJson (r : ResultData) : Json :=
  Json.obj
    ((match r.data_array with
      | none => []
      | some a => [("data_array", serializeDataArray a)]) ++
     (match r.external_links with
      | none => []
      | some ls => [("external_links", Json.arr (ls.map ExternalLink.toJson))]))

/-- Dissection of a successful `Except` bind: both steps succeeded. -/
theorem exceptBindOk {E A B : Type} {x : Except E A} {f : A → Except E B} {b : B}
    (h : x.bind f = .ok b) : ∃ a, x = .ok a ∧ f a = .ok b := by
  cases x with
  | ok a => exact ⟨a, rfl, h⟩
  | error e => exact absurd h (by simp [Except.bind])

/-- Appending strings appends their character lists. -/
theorem stringDataAppend (s t : String) : (s ++ t).data = s.data ++ t.data := by
  cases s
  cases t
  rfl

/-- The `Bearer ` prefix is made of valid header characters, so the formatted
header value is valid exactly when the token is. -/
theorem headerValueOkBearer (token : String) :
    headerValueOk ("Bearer " ++ token) = headerValueOk token := by
  have hpre : "Bearer ".data.all charHeaderValid = true := by decide
  unfold headerValueOk
  rw [stringDataAppend, List.all_append, hpre, Bool.true_and]

/-- C3: for every ErrorResponse payload, `HttpError::from_error_response` is
total, deterministic and equal to the fixed lookup table — `BAD_REQUEST` and
`INVALID_PARAMETER_VALUE` map to `BadRequest`; the six like-named codes map to
their kinds; any other code maps to `InternalServerError` — and the produced
kind always carries the payload's message unchanged. -/
theorem from_error_response_is_fixed_lookup (code msg : String) :
    HttpError.from_error_response ⟨code, msg⟩ =
      (if code = "BAD_REQUEST" ∨ code = "INVALID_PARAMETER_VALUE" then
        HttpError.BadRequest msg
       else if code = "UNAUTHORIZED" then HttpError.Unauthorized msg
       else if code = "PERMISSION_DENIED" then HttpError.PermissionDenied msg
       else if code = "NOT_FOUND" then HttpError.NotFound msg
       else if code = "REQUEST_LIMIT_EXCEEDED" then HttpError.RequestLimitExceeded msg
       else if code = "INTERNAL_SERVER_ERROR" then HttpError.InternalServerError msg
       else if code = "TEMPORARILY_UNAVAILABLE" then HttpError.TemporarilyUnavailable msg
       else HttpError.InternalServerError msg) ∧
    (HttpError.from_error_response ⟨code, msg⟩).text = msg := by
  constructor
  · simp only [HttpError.from_error_response]
    split <;> simp_all
  · simp only [HttpError.from_error_response]
    split <;> simp [HttpError.text]

/-- C9: the session's `handle_response` and the response-handling tail of the
superseded free-function `send_databricks_request` classify every pair of a
status code and a body-text read identically. -/
theorem handle_response_refines_free_tail {T : Type}
    (parseT : String → Except String T)
    (parseErr : String → Option ErrorResponse) (response : Rsp) :
    DatabricksSession.handle_response parseT parseErr response =
      sendRequestTail parseT parseErr response := rfl

/-- C8: every public Session operation delegates to the shared dispatch routine
with exactly the fixed HTTP method and path of its endpoint — POST
`api/2.0/sql/statements` with the request body, GET
`api/2.0/sql/statements/{statement_id}`, GET
`api/2.0/sql/statements/{statement_id}/result/chunks/{chunk_index}`, GET
`api/2.0/clusters/get?cluster_id={cluster_id}`, POST `api/2.1/jobs/run-now`
with the request body — and every GET operation sends no body. -/
theorem session_methods_delegate_with_fixed_endpoints {T B : Type}
    (config : Config) (transport : BuiltRequest → TransportResult)
    (serialize : B → Json) (parseT : String → Except String T)
    (parseErr : String → Option ErrorResponse)
    (request_body : B) (statement_id cluster_id : String) (chunk_index : Int) :
    DatabricksSession.execute_sql_statement config transport serialize parseT parseErr
        request_body =
      DatabricksSession.send_databricks_request config transport serialize parseT parseErr
        HttpMethod.POST "api/2.0/sql/statements" (some request_body) ∧
    DatabricksSession.get_sql_statement_status config transport parseT parseErr
        statement_id =
      DatabricksSession.send_databricks_request config transport
        (fun _ : Unit => Json.null) parseT parseErr
        HttpMethod.GET ("api/2.0/sql/statements/" ++ statement_id) none ∧
    DatabricksSession.get_sql_statement_result_chunk config transport parseT parseErr
        statement_id chunk_index =
      DatabricksSession.send_databricks_request config transport
        (fun _ : Unit => Json.null) parseT parseErr
        HttpMethod.GET
        ("api/2.0/sql/statements/" ++ statement_id ++ "/result/chunks/" ++
          toString chunk_index) none ∧
    DatabricksSession.get_cluster_info config transport parseT parseErr cluster_id =
      DatabricksSession.send_databricks_request config transport
        (fun _ : Unit => Json.null) parseT parseErr
        HttpMethod.GET ("api/2.0/clusters/get?cluster_id=" ++ cluster_id) none ∧
    DatabricksSession.execute_job_run config transport serialize parseT parseErr
        request_body =
      DatabricksSession.send_databricks_request config transport serialize parseT parseErr
        HttpMethod.POST "api/2.1/jobs/run-now" (some request_body) :=
  ⟨rfl, rfl, rfl, rfl, rfl⟩

/-- C2: a response with status exactly 200 whose body text fails to parse as
the expected success type yields `InternalServerError` carrying the parse
error's message, for every possible `ErrorResponse` parser — the handler never
consults the error-shape parse on a 200 and never returns a success value. -/
theorem status_200_parse_failure_is_internal_server_error {T : Type}
    (parseT : String → Except String T) (text : Option String) (e : String)
    (h : parseT (text.getD "Failed to get response text") = .error e) :
    ∀ parseErr : String → Option ErrorResponse,
      DatabricksSession.handle_response parseT parseErr ⟨200, text⟩ =
        .error (HttpError.InternalServerError e) := by
  intro parseErr
  simp [DatabricksSession.handle_response, h]

/-- C1: for every response whose status is not 200, the handler returns an
error, never a success value: it classifies the body parsed as `ErrorResponse`
through the taxonomy, falling back, when that parse fails, to a synthesized
`ErrorResponse` with code `UNKNOWN` and a message embedding the status code;
in particular a 500 response whose body does not parse as an `ErrorResponse`
yields `InternalServerError` with a message containing `500`. -/
theorem non_200_status_always_classified_error {T : Type}
    (parseT : String → Except String T)
    (parseErr : String → Option ErrorResponse)
    (status : Nat) (text : Option String)
    (h : status ≠ 200) :
    (∀ v : T, DatabricksSession.handle_response parseT parseErr ⟨status, text⟩ ≠ .ok v) ∧
    DatabricksSession.handle_response parseT parseErr ⟨status, text⟩ =
      .error (HttpError.from_error_response
        ((parseErr (text.getD "Failed to get response text")).getD
          ⟨"UNKNOWN", "Unknown error with status code: " ++ statusDisplay status⟩)) ∧
    (status = 500 →
      parseErr (text.getD "Failed to get response text") = none →
      DatabricksSession.handle_response parseT parseErr ⟨status, text⟩ =
        .error (HttpError.InternalServerError
          ("Unknown error with status code: " ++ "500" ++ " Internal Server Error"))) := by
  refine ⟨?_, ?_, ?_⟩
  · intro v hv
    simp [DatabricksSession.handle_response, h] at hv
  · simp [DatabricksSession.handle_response, h]
  · intro h500 hpe
    subst h500
    simp [DatabricksSession.handle_response, hpe]
    rfl

/-- C4: a transport-level failure of the send step maps to
`TemporarilyUnavailable` when it is a timeout and to `InternalServerError`
otherwise, both carrying the underlying message text, in the session
dispatcher and in the superseded free-function dispatcher alike. -/
theorem transport_failure_classification {T B : Type}
    (host token auth : String)
    (transport : BuiltRequest → TransportResult) (serialize : B → Json)
    (parseT : String → Except String T) (parseErr : String → Option ErrorResponse)
    (method : HttpMethod) (endpoint : String) (body : Option B)
    (is_timeout : Bool) (msg : String)
    (hAuth : buildAuthHeader token = some auth)
    (hT : transport (builtRequest host auth method endpoint (body.map serialize)) =
      .err is_timeout msg) :
    DatabricksSession.send_databricks_request ⟨host, token⟩ transport serialize
        parseT parseErr method endpoint body =
      some (.error (if is_timeout then HttpError.TemporarilyUnavailable msg
                    else HttpError.InternalServerError msg)) ∧
    send_databricks_request host token transport serialize
        parseT parseErr method endpoint body =
      some (.error (if is_timeout then HttpError.TemporarilyUnavailable msg
                    else HttpError.InternalServerError msg)) := by
  constructor
  · simp [DatabricksSession.send_databricks_request, hAuth, hT]
  · simp [send_databricks_request, hAuth, hT]

/-- C10: building the Authorization header is not total over tokens — when
`Bearer <token>` is not a valid header value (e.g. the token contains a
newline), both dispatch routines hit the `unwrap` panic (modelled as `none`)
before any request is sent; for every valid token no panic occurs at this
step. Validity of the formatted value coincides with validity of the token,
since the `Bearer ` prefix is itself valid. -/
theorem auth_header_unwrap_panics_iff_token_invalid {T B : Type}
    (host token : String)
    (transport : BuiltRequest → TransportResult) (serialize : B → Json)
    (parseT : String → Except String T) (parseErr : String → Option ErrorResponse)
    (method : HttpMethod) (endpoint : String) (body : Option B) :
    (headerValueOk token = false →
      DatabricksSession.send_databricks_request ⟨host, token⟩ transport serialize
          parseT parseErr method endpoint body = none ∧
      send_databricks_request host token transport serialize
          parseT parseErr method endpoint body = none) ∧
    (headerValueOk token = true →
      DatabricksSession.send_databricks_request ⟨host, token⟩ transport serialize
          parseT parseErr method endpoint body ≠ none ∧
      send_databricks_request host token transport serialize
          parseT parseErr method endpoint body ≠ none) := by
  have hb : buildAuthHeader token =
      if headerValueOk token then some ("Bearer " ++ token) else none := by
    simp [buildAuthHeader, headerValueOkBearer]
  constructor
  · intro h
    constructor
    · simp [DatabricksSession.send_databricks_request, hb, h]
    · simp [send_databricks_request, hb, h]
  · intro h
    constructor
    · simp [DatabricksSession.send_databricks_request, hb, h]
    · simp [send_databricks_request, hb, h]

/-- C10 witness: a token containing a newline panics both dispatchers; the
token `token` does not. -/
theorem auth_header_unwrap_panics_witness :
    (DatabricksSession.send_databricks_request (T := Unit) (B := Unit)
        ⟨"https://h", "bad\ntoken"⟩ (fun _ => TransportResult.err false "no")
        (fun _ => Json.null) (fun _ => .error "e") (fun _ => none)
        HttpMethod.GET "api/2.0/sql/statements/s" none = none ∧
      send_databricks_request (T := Unit) (B := Unit)
        "https://h" "bad\ntoken" (fun _ => TransportResult.err false "no")
        (fun _ => Json.null) (fun _ => .error "e") (fun _ => none)
        HttpMethod.GET "api/2.0/sql/statements/s" none = none) ∧
    (DatabricksSession.send_databricks_request (T := Unit) (B := Unit)
        ⟨"https://h", "token"⟩ (fun _ => TransportResult.err false "no")
        (fun _ => Json.null) (fun _ => .error "e") (fun _ => none)
        HttpMethod.GET "api/2.0/sql/statements/s" none ≠ none ∧
      send_databricks_request (T := Unit) (B := Unit)
        "https://h" "token" (fun _ => TransportResult.err false "no")
        (fun _ => Json.null) (fun _ => .error "e") (fun _ => none)
        HttpMethod.GET "api/2.0/sql/statements/s" none ≠ none) :=
  ⟨(auth_header_unwrap_panics_iff_token_invalid "https://h" "bad\ntoken" _ _ _ _
      HttpMethod.GET "api/2.0/sql/statements/s" none).1 (by decide),
   (auth_header_unwrap_panics_iff_token_invalid "https://h" "token" _ _ _ _
      HttpMethod.GET "api/2.0/sql/statements/s" none).2 (by decide)⟩

/-- C6: serializing a ResultData omits each absent field entirely — the output
object has a `data_array` (resp. `external_links`) key exactly when the field
is present — and with only `data_array` populated the output is an object with
no `external_links` key at all. -/
theorem resultdata_serialization_omits_absent_fields (r : ResultData) :
    ((ResultData.toJson r).getField "data_array").isSome = r.data_array.isSome ∧
    ((ResultData.toJson r).getField "external_links").isSome = r.external_links.isSome ∧
    (∀ a, r.data_array = some a → r.external_links = none →
      ResultData.toJson r = Json.obj [("data_array", serializeDataArray a)]) := by
  obtain ⟨da, el⟩ := r
  refine ⟨?_, ?_, ?_⟩
  · cases da <;> cases el <;>
      simp [ResultData.toJson, Json.getField, List.lookup]
  · cases da <;> cases el <;>
      simp [ResultData.toJson, Json.getField, List.lookup]
  · intro a h1 h2
    simp only at h1 h2
    subst h1
    subst h2
    simp [ResultData.toJson]

/-- C6 witness: a ResultData with only `data_array` populated serializes to an
object with a `data_array` key, no `external_links` key, and exactly the one
field. -/
theorem resultdata_serialization_witness :
    ((ResultData.toJson ⟨some [[some "x", none]], none⟩).getField "data_array").isSome
        = (some [[some "x", none]] : Option (List (List (Option String)))).isSome ∧
    ((ResultData.toJson ⟨some [[some "x", none]], none⟩).getField "external_links").isSome
        = (none : Option (List ExternalLink)).isSome ∧
    ResultData.toJson ⟨some [[some "x", none]], none⟩ =
      Json.obj [("data_array", serializeDataArray [[some "x", none]])] :=
  ⟨(resultdata_serialization_omits_absent_fields ⟨some [[some "x", none]], none⟩).1,
   (resultdata_serialization_omits_absent_fields ⟨some [[some "x", none]], none⟩).2.1,
   (resultdata_serialization_omits_absent_fields ⟨some [[some "x", none]], none⟩).2.2
     [[some "x", none]] rfl rfl⟩

/-- C7: deserializing a Manifest JSON object that lacks a `chunks` key succeeds
with an empty chunk list (given the required fields), and in general any
successful Manifest parse of an object without a `chunks` key yields an empty
chunk list. -/
theorem manifest_missing_chunks_yields_empty_list :
    (∀ (fmt : String) (tcc trc : Int) (tr : Bool),
      deserializeManifest (Json.obj [("format", Json.str fmt),
        ("total_chunk_count", Json.num tcc), ("total_row_count", Json.num trc),
        ("truncated", Json.bool tr)]) =
        .ok ⟨fmt, none, [], tcc, trc, none, tr⟩) ∧
    (∀ (j : Json) (m : Manifest), j.getField "chunks" = none →
      deserializeManifest j = .ok m → m.chunks = []) := by
  constructor
  · intro fmt tcc trc tr
    rfl
  · intro j m hch hok
    cases j with
    | obj fields =>
        simp only [deserializeManifest] at hok
        obtain ⟨fmt, h1, hok⟩ := exceptBindOk hok
        obtain ⟨sch, h2, hok⟩ := exceptBindOk hok
        obtain ⟨chs, h3, hok⟩ := exceptBindOk hok
        obtain ⟨tcc, h4, hok⟩ := exceptBindOk hok
        obtain ⟨trc, h5, hok⟩ := exceptBindOk hok
        obtain ⟨tbc, h6, hok⟩ := exceptBindOk hok
        obtain ⟨tr, h7, hok⟩ := exceptBindOk hok
        have hchs : chs = [] := by
          rw [defField, hch] at h3
          exact (Except.ok.injEq _ _ ▸ h3).symm
        cases hok
        simp [hchs]
    | null => simp [deserializeManifest] at hok
    | bool b => simp [deserializeManifest] at hok
    | num n => simp [deserializeManifest] at hok
    | str s => simp [deserializeManifest] at hok
    | arr xs => simp [deserializeManifest] at hok

/-- C7 witness: the four-field Manifest object without a `chunks` key parses
successfully and its chunk list is empty. -/
theorem manifest_missing_chunks_witness :
    deserializeManifest (Json.obj [("format", Json.str "JSON_ARRAY"),
      ("total_chunk_count", Json.num 1), ("total_row_count", Json.num 2),
      ("truncated", Json.bool false)]) =
      .ok ⟨"JSON_ARRAY", none, [], 1, 2, none, false⟩ ∧
    (⟨"JSON_ARRAY", none, [], 1, 2, none, false⟩ : Manifest).chunks = [] :=
  ⟨manifest_missing_chunks_yields_empty_list.1 "JSON_ARRAY" 1 2 false,
   manifest_missing_chunks_yields_empty_list.2
     (Json.obj [("format", Json.str "JSON_ARRAY"),
       ("total_chunk_count", Json.num 1), ("total_row_count", Json.num 2),
       ("truncated", Json.bool false)])
     ⟨"JSON_ARRAY", none, [], 1, 2, none, false⟩ (by rfl) (by rfl)⟩

/-- C5 counterexample: an otherwise complete ExternalLink object whose
`expiration` key is absent does not deserialize; the parse fails with a
missing-field error, contradicting the claim that a null or absent expiration
succeeds. -/
theorem externallink_absent_expiration_fails :
    deserializeExternalLink (Json.obj [("chunk_index", Json.num 0),
      ("row_offset", Json.num 0), ("row_count", Json.num 1),
      ("byte_count", Json.num 10),
      ("external_link", Json.str "https://example.com/x")]) =
      .error "missing field expiration" := by
  rfl

/-- C5 amended: deserializing an ExternalLink whose `expiration` is null
succeeds and yields the not-present state, but an absent `expiration` key
fails the parse with a missing-field error; a non-null string that is not a
parsable ISO-8601 datetime fails the whole parse with a decode error; a valid
ISO-8601 string yields the present, correctly parsed instant. -/
theorem externallink_expiration_outcomes :
    deserialize_datetime Json.null = .ok none ∧
    deserializeExternalLink (Json.obj [("chunk_index", Json.num 0),
      ("row_offset", Json.num 0), ("row_count", Json.num 1),
      ("byte_count", Json.num 10),
      ("external_link", Json.str "https://example.com/x"),
      ("expiration", Json.null)]) =
      .ok ⟨0, 0, 1, 10, none, none, "https://example.com/x", none⟩ ∧
    (∀ (fields : List (String × Json)) (s : String),
      (Json.obj fields).getField "expiration" = some (Json.str s) →
      parseDateTimeUtc s = none →
      ∀ l : ExternalLink, deserializeExternalLink (Json.obj fields) ≠ .ok l) ∧
    (∀ fields : List (String × Json),
      (Json.obj fields).getField "expiration" = none →
      ∀ l : ExternalLink, deserializeExternalLink (Json.obj fields) ≠ .ok l) ∧
    deserializeExternalLink (Json.obj [("chunk_index", Json.num 0),
      ("row_offset", Json.num 0), ("row_count", Json.num 1),
      ("byte_count", Json.num 10),
      ("external_link", Json.str "https://example.com/x"),
      ("expiration", Json.str "2024-01-01T00:00:00Z")]) =
      .ok ⟨0, 0, 1, 10, none, none, "https://example.com/x",
           some ⟨1704067200, 0⟩⟩ := by
  refine ⟨rfl, rfl, ?_, ?_, rfl⟩
  · intro fields s hexp hparse l hok
    simp only [deserializeExternalLink] at hok
    obtain ⟨a1, h1, hok⟩ := exceptBindOk hok
    obtain ⟨a2, h2, hok⟩ := exceptBindOk hok
    obtain ⟨a3, h3, hok⟩ := exceptBindOk hok
    obtain ⟨a4, h4, hok⟩ := exceptBindOk hok
    obtain ⟨a5, h5, hok⟩ := exceptBindOk hok
    obtain ⟨a6, h6, hok⟩ := exceptBindOk hok
    obtain ⟨a7, h7, hok⟩ := exceptBindOk hok
    rw [hexp] at hok
    obtain ⟨a8, h8, hok⟩ := exceptBindOk hok
    simp only [deserialize_datetime, deserializeOption, deserializeString] at h8
    obtain ⟨a9, h9, h8⟩ := exceptBindOk h8
    injection h9 with h9
    subst h9
    simp [hparse] at h8
  · intro fields hexp l hok
    simp only [deserializeExternalLink] at hok
    obtain ⟨a1, h1, hok⟩ := exceptBindOk hok
    obtain ⟨a2, h2, hok⟩ := exceptBindOk hok
    obtain ⟨a3, h3, hok⟩ := exceptBindOk hok
    obtain ⟨a4, h4, hok⟩ := exceptBindOk hok
    obtain ⟨a5, h5, hok⟩ := exceptBindOk hok
    obtain ⟨a6, h6, hok⟩ := exceptBindOk hok
    obtain ⟨a7, h7, hok⟩ := exceptBindOk hok
    rw [hexp] at hok
    obtain ⟨a8, h8, hok⟩ := exceptBindOk hok
    exact absurd h8 (by simp)

/-- C5 amended witness: the unparsable string `not-a-date` makes the whole
parse fail, and the absent-key object cannot parse to the link that the null
variant yields. -/
theorem externallink_expiration_outcomes_witness :
    deserializeExternalLink (Json.obj [("chunk_index", Json.num 0),
      ("row_offset", Json.num 0), ("row_count", Json.num 1),
      ("byte_count", Json.num 10),
      ("external_link", Json.str "https://example.com/x"),
      ("expiration", Json.str "not-a-date")]) ≠
      .ok ⟨0, 0, 1, 10, none, none, "https://example.com/x", none⟩ ∧
    deserializeExternalLink (Json.obj [("chunk_index", Json.num 0),
      ("row_offset", Json.num 0), ("row_count", Json.num 1),
      ("byte_count", Json.num 10),
      ("external_link", Json.str "https://example.com/x")]) ≠
      .ok ⟨0, 0, 1, 10, none, none, "https://example.com/x", none⟩ :=
  ⟨externallink_expiration_outcomes.2.2.1 _ "not-a-date" (by rfl) (by rfl) _,
   externallink_expiration_outcomes.2.2.2.1 _ (by rfl) _⟩

/-- C1 witness: a 500 response with a non-JSON body (no ErrorResponse parse)
is classified as `InternalServerError` with a message containing `500`. -/
theorem non_200_status_witness :
    DatabricksSession.handle_response (T := Unit)
        (fun _ => .error "expected value") (fun _ => none)
        ⟨500, some "<html>oops</html>"⟩ =
      .error (HttpError.from_error_response
        ((none : Option ErrorResponse).getD
          ⟨"UNKNOWN", "Unknown error with status code: " ++ statusDisplay 500⟩)) ∧
    DatabricksSession.handle_response (T := Unit)
        (fun _ => .error "expected value") (fun _ => none)
        ⟨500, some "<html>oops</html>"⟩ =
      .error (HttpError.InternalServerError
        ("Unknown error with status code: " ++ "500" ++ " Internal Server Error")) :=
  ⟨(non_200_status_always_classified_error (fun _ => .error "expected value")
      (fun _ => none) 500 (some "<html>oops</html>") (by decide)).2.1,
   (non_200_status_always_classified_error (fun _ => .error "expected value")
      (fun _ => none) 500 (some "<html>oops</html>") (by decide)).2.2 rfl rfl⟩

/-- C2 witness: a 200 response whose body fails to parse as the expected type
yields `InternalServerError` carrying the parse error's message. -/
theorem status_200_parse_failure_witness :
    DatabricksSession.handle_response (T := Unit)
        (fun _ => .error "invalid type") (fun _ => some ⟨"NOT_FOUND", "x"⟩)
        ⟨200, some "not json"⟩ =
      .error (HttpError.InternalServerError "invalid type") :=
  status_200_parse_failure_is_internal_server_error
    (fun _ => .error "invalid type") (some "not json") "invalid type" rfl
    (fun _ => some ⟨"NOT_FOUND", "x"⟩)

/-- C4 witness: a timeout maps to `TemporarilyUnavailable` in both dispatch
routines, carrying the transport's message. -/
theorem transport_failure_witness :
    DatabricksSession.send_databricks_request (T := Unit) (B := Unit)
        ⟨"https://h", "tok"⟩ (fun _ => TransportResult.err true "request timed out")
        (fun _ => Json.null) (fun _ => .error "e") (fun _ => none)
        HttpMethod.GET "api/2.0/clusters/get?cluster_id=c" none =
      some (.error (if true then HttpError.TemporarilyUnavailable "request timed out"
                    else HttpError.InternalServerError "request timed out")) ∧
    send_databricks_request (T := Unit) (B := Unit)
        "https://h" "tok" (fun _ => TransportResult.err true "request timed out")
        (fun _ => Json.null) (fun _ => .error "e") (fun _ => none)
        HttpMethod.GET "api/2.0/clusters/get?cluster_id=c" none =
      some (.error (if true then HttpError.TemporarilyUnavailable "request timed out"
                    else HttpError.InternalServerError "request timed out")) :=
  transport_failure_classification "https://h" "tok" "Bearer tok"
    (fun _ => TransportResult.err true "request timed out")
    (fun _ => Json.null) (fun _ => .error "e") (fun _ => none)
    HttpMethod.GET "api/2.0/clusters/get?cluster_id=c" none true "request timed out"
    (by decide) rfl
